import Mathlib

/-!
Formal model of the MedicalBot query-orchestration core.

The definitions below are a shallow embedding of the Python sources:
  * `core/rag_system.py`   (class `RAGSystem`: `query`, `api_query`,
    `_ensure_valid_response`, `add_to_conversation_history`, `save_conversation`)
  * `core/llm_client.py`   (class `LLMClient`: `generate_response`, `_generate_openai`)
  * `utils/prompts.py`     (class `Prompts`: the prompt templates)

External capabilities are modelled as oracle inputs:
  * the LLM classification (`llm_client.classify_query`) as an `Option String`
    (its value `None` signals classification failure, exactly as in the source);
  * the vector-store search (`vector_store.search`) as an
    `Except String (List Chunk)` (`.error msg` models the call raising an
    exception with message `msg`, the only operation on the modelled text path
    that can raise: `generate_response` catches everything internally);
  * the generator (`llm_client.generate_response`) as a total
    `String → String` oracle from prompt to reply, faithful to the source,
    where `generate_response` never raises (see `generateResponse` below).

Python string operations are modelled character-wise (`pyLower`, `pyStrip`,
`pyIn`), which agrees with Python semantics on the ASCII text involved.
Wall-clock timing is not modelled: the `query_time` field is `0` everywhere
(the source stores literal `0` on the refusal and fault paths and an elapsed
time on the normal path).
-/

namespace MedicalBot

/-- Model of Python `str.lower()`: character-wise lowering. -/
def pyLower (s : String) : String := String.mk (s.data.map Char.toLower)

/-- Model of Python `str.strip()`: remove leading and trailing whitespace. -/
def pyStrip (s : String) : String :=
  String.mk (((s.data.dropWhile Char.isWhitespace).reverse.dropWhile Char.isWhitespace).reverse)

/-- Model of Python `str.capitalize()`: first character upper-cased, rest lower-cased. -/
def pyCapitalize (s : String) : String :=
  match s.data with
  | [] => ""
  | c :: rest => String.mk (c.toUpper :: rest.map Char.toLower)

/-- Helper for substring search: does `needle` match at the front of `hay`? -/
def leadMatch : List Char → List Char → Bool
  | [], _ => true
  | _ :: _, [] => false
  | a :: as, b :: bs => a == b && leadMatch as bs

/-- Does `needle` occur as a contiguous sublist of `hay`? -/
def occursInChars : List Char → List Char → Bool
  | needle, [] => leadMatch needle []
  | needle, c :: rest => leadMatch needle (c :: rest) || occursInChars needle rest

/-- Model of the Python substring test `needle in hay` on strings. -/
def pyIn (needle hay : String) : Bool := occursInChars needle.data hay.data

/-! ### Data model -/

/-- One retrieved chunk, as returned by `vector_store.search`
(`{content, metadata, similarity}`).  The core logic only reads `content`;
metadata and the similarity score are opaque pass-through values (similarity is
a float in the source; it is modelled by an opaque `Option Int` since no core
logic inspects it). -/
structure Chunk where
  content : String
  metadata : List (String × String)
  similarity : Option Int
deriving DecidableEq

/-- One conversation-history entry
(`{"user": ..., "assistant": ..., "timestamp": ...}`,
`rag_system.py` lines 80-84). -/
structure HistEntry where
  user : String
  assistant : String
  timestamp : String
deriving DecidableEq

/-- One prior-chat message handed to `api_query` (`{"role": ..., "content": ...}`). -/
structure ChatMsg where
  role : String
  content : String
deriving DecidableEq

/-- Result dictionary of `RAGSystem.query`
(`{answer, chunks_found, query_time, success, error?}`). -/
structure QueryResult where
  answer : String
  chunks_found : Nat
  query_time : Nat
  success : Bool
  error : Option String
deriving DecidableEq

/-! ### Fixed vocabulary and boilerplate (from `core/rag_system.py`) -/

/-- Medical keyword list of `RAGSystem.query` (lines 127-132); the entry
`"diagnosis"` appears twice in the source and the duplicate is kept.
`RAGSystem.api_query` (lines 409-414) re-declares the identical list. -/
def medicalKeywords : List String :=
  ["health", "medicine", "doctor", "hospital", "disease", "condition",
   "symptom", "treatment", "drug", "patient", "nurse", "therapy", "medical",
   "clinical", "diagnosis", "surgery", "organ", "body", "anatomy", "nursing",
   "blood", "heart", "lungs", "brain", "liver", "kidney", "ph level", "hp",
   "immune", "diet", "nutrition", "cancer", "diabetes", "virus", "bacterial",
   "infection", "prescription", "diagnosis", "prognosis", "chronic", "acute"]

/-- Non-medical keyword list of `RAGSystem.query` (lines 135-138);
`RAGSystem.api_query` (lines 416-419) re-declares the identical list. -/
def nonMedicalKeywords : List String :=
  ["computer", "programming", "gaming", "video game", "sports", "politics",
   "entertainment", "movies", "celebrity", "stock market", "finance",
   "cooking", "recipes", "travel", "vacation", "cars", "fashion",
   "technology", "crypto", "weather", "news", "music", "art", "books"]

/-- The six boilerplate-invalid phrases (`rag_system.py` lines 265-272; the
identical list is re-declared in `_ensure_valid_response`, lines 802-809). -/
def invalidResponses : List String :=
  ["the system processed your query but couldn't generate a response",
   "i don't know",
   "i couldn't generate a response",
   "no answer generated",
   "sorry, i cannot provide a response",
   "not enough information"]

/-- Medical keyword list local to `_ensure_valid_response` (lines 812-815);
it differs from `medicalKeywords` (it adds `"hp level"`, `"human body"` and
drops the tail of the other list). -/
def evrMedicalKeywords : List String :=
  ["health", "medicine", "doctor", "hospital", "disease", "condition",
   "symptom", "treatment", "drug", "patient", "nurse", "therapy", "medical",
   "clinical", "diagnosis", "surgery", "organ", "body", "anatomy", "nursing",
   "hp level", "human body", "blood", "heart", "lungs", "brain", "liver"]

/-- The fixed refusal sentence for out-of-domain questions. -/
def refusalAnswer : String :=
  "I am a medical bot and can only assist with medical-related topics."

/-! ### Prompt templates (from `utils/prompts.py`) -/

/-- History section of the with-context RAG prompts (`prompts.py` lines 108-114):
empty when the history string is falsy, else the history framed by a header and
a trailing blank line. -/
def ragHistorySection (conversationHistory : String) : String :=
  if conversationHistory != "" then
    "\nConversation History:\n" ++ conversationHistory ++ "\n\n"
  else ""

/-- History section of the no-context prompts (`prompts.py` lines 42-47): one
trailing newline instead of two. -/
def noContextHistorySection (conversationHistory : String) : String :=
  if conversationHistory != "" then
    "\nConversation History:\n" ++ conversationHistory ++ "\n"
  else ""

/-- Text of `Prompts.basic_rag_prompt` before the `{context}` interpolation. -/
def basicRagPromptPre (conversationHistory : String) : String :=
  "You are a helpful medical assistant. Use the context below to answer the question.\n"
  ++ ragHistorySection conversationHistory ++
  "\nIMPORTANT INSTRUCTIONS:\n1. If the context contains information relevant to the question, use it to provide an accurate answer\n2. If the context does not contain information relevant to the question but the question is medical in nature, use your general medical knowledge to provide a helpful response\n3. NEVER say \"I don't know\" or \"I couldn't generate a response\" for medical topics - always provide an informative answer\n4. Only say \"I am a medical bot and can only assist with medical-related topics\" if the question is completely unrelated to medicine or healthcare\n5. Maintain consistency with information provided in the conversation history\n6. If the question refers to terms or concepts mentioned in previous messages, explain them thoroughly\n\nContext:\n"

/-- Text of `Prompts.basic_rag_prompt` after the `{context}` interpolation. -/
def basicRagPromptPost (question : String) : String :=
  "\n\nQuestion: " ++ question ++ "\nAnswer:"

/-- Model of `Prompts.basic_rag_prompt` (`prompts.py` lines 96-130). -/
def basicRagPrompt (context question conversationHistory : String) : String :=
  basicRagPromptPre conversationHistory ++ context ++ basicRagPromptPost question

/-- Text of `Prompts.medical_rag_prompt` before the `{context}` interpolation. -/
def medicalRagPromptPre (conversationHistory : String) : String :=
  "You are a knowledgeable medical assistant. Use the provided medical context to answer the question accurately.\n"
  ++ ragHistorySection conversationHistory ++
  "\nImportant guidelines:\n- First, try to answer based on the provided medical context\n- If the context doesn't contain relevant information but the question is medical in nature, use your general medical knowledge\n- If the question asks about medical terminology or concepts mentioned in previous messages, provide a detailed explanation\n- NEVER say \"I don't know\" or \"I couldn't generate a response\" for medical topics - always provide an informative answer\n- Only say \"I am a medical bot and can only assist with medical-related topics\" if the question is completely unrelated to medicine or healthcare\n- Maintain consistency with information provided in the conversation history\n- Provide clear, concise answers\n- Do not provide medical diagnosis or treatment recommendations; provide factual information only\n\nMedical Context:\n"

/-- Text of `Prompts.medical_rag_prompt` after the `{context}` interpolation. -/
def medicalRagPromptPost (question : String) : String :=
  "\n\nQuestion: " ++ question ++ "\nAnswer:"

/-- Model of `Prompts.medical_rag_prompt` (`prompts.py` lines 133-169). -/
def medicalRagPrompt (context question conversationHistory : String) : String :=
  medicalRagPromptPre conversationHistory ++ context ++ medicalRagPromptPost question

/-- Text of `Prompts.detailed_rag_prompt` before the `{context}` interpolation. -/
def detailedRagPromptPre (conversationHistory : String) : String :=
  "You are an expert medical assistant specializing in document analysis and question answering.\n"
  ++ ragHistorySection conversationHistory ++
  "\nInstructions:\n1. Carefully read the provided context\n2. First try to answer based solely on the information in the context\n3. If the context doesn't contain relevant information but the question is medical in nature, use your general medical knowledge\n4. If the question asks about medical terms, concepts or phrases mentioned in previous messages, provide a comprehensive explanation\n5. NEVER say \"I don't know\" or \"I couldn't generate a response\" for medical topics - always provide an informative answer\n6. Only say \"I am a medical bot and can only assist with medical-related topics\" if the question is completely unrelated to medicine or healthcare\n7. Maintain consistency with information provided in the conversation history\n8. Quote specific parts of the context when relevant\n9. Be precise and factual\n10. Do not provide medical diagnosis or treatment recommendations; provide factual information only\n\nContext:\n"

/-- Text of `Prompts.detailed_rag_prompt` after the `{context}` interpolation. -/
def detailedRagPromptPost (question : String) : String :=
  "\n\nQuestion: " ++ question ++ "\n\nPlease provide a detailed answer:"

/-- Model of `Prompts.detailed_rag_prompt` (`prompts.py` lines 172-211). -/
def detailedRagPrompt (context question conversationHistory : String) : String :=
  detailedRagPromptPre conversationHistory ++ context ++ detailedRagPromptPost question

/-- Model of `Prompts.generate_prompt` (`prompts.py` lines 9-27): dispatch on
the prompt type. -/
def generatePrompt (question context promptType conversationHistory : String) : String :=
  if promptType == "medical" then medicalRagPrompt context question conversationHistory
  else if promptType == "detailed" then detailedRagPrompt context question conversationHistory
  else basicRagPrompt context question conversationHistory

/-- Model of `Prompts.generate_no_context_prompt` (`prompts.py` lines 30-93). -/
def generateNoContextPrompt (question promptType conversationHistory : String) : String :=
  let historySection := noContextHistorySection conversationHistory
  if promptType == "medical" then
    "You are a helpful medical assistant. The user is asking a question about a medical topic.\n\n"
    ++ historySection ++
    "\nEven though I don't have specific medical documents that exactly match their query, you MUST:\n1. Always respond to medical questions using your general medical knowledge\n2. Be informative and educational when explaining medical terminology, processes, or concepts\n3. NEVER say \"I don't know\" or \"I couldn't generate a response\" for medical topics\n4. Only say \"I am a medical bot and can only assist with medical-related topics\" if the question is completely unrelated to medicine or healthcare\n5. Maintain consistent information with any previous responses in the conversation history\n6. If the question refers to something mentioned in previous messages, address it directly\n\nQuestion: "
    ++ question ++ "\n\nAnswer:"
  else if promptType == "detailed" then
    "You are a helpful medical assistant with extensive knowledge. The user is asking a detailed question.\n\n"
    ++ historySection ++
    "\nEven though I don't have specific documents that match their query, you MUST:\n1. Provide a thorough and comprehensive response using your general knowledge\n2. Be informative and educational when explaining medical terminology, processes, or concepts\n3. NEVER say \"I don't know\" or \"I couldn't generate a response\" for medical topics\n4. Only say \"I am a medical bot and can only assist with medical-related topics\" if the question is completely unrelated to medicine or healthcare\n5. Maintain consistent information with any previous responses in the conversation history\n6. If the question refers to something mentioned in previous messages, address it directly\n\nQuestion: "
    ++ question ++ "\n\nAnswer:"
  else
    "You are a helpful medical assistant. The user is asking a question.\n\n"
    ++ historySection ++
    "\nEven though I don't have specific documents that match their query, you MUST:\n1. Respond using your general medical knowledge if the question is related to medical topics\n2. Be informative and educational when explaining medical terminology, processes, or concepts\n3. NEVER say \"I don't know\" or \"I couldn't generate a response\" for medical topics\n4. Only say \"I am a medical bot and can only assist with medical-related topics\" if the question is completely unrelated to medicine or healthcare\n5. Maintain consistent information with any previous responses in the conversation history\n6. If the question refers to something mentioned in previous messages, address it directly\n\nQuestion: "
    ++ question ++ "\n\nAnswer:"

/-! ### Inline prompts of `RAGSystem.query` (from `core/rag_system.py`) -/

/-- Limited-context medical prompt of `RAGSystem.query` (lines 216-230),
used when `0 < chunks_found < 2` and the question is classified medical. -/
def limitedContextMedicalPrompt (question limitedContext medicalContext : String) : String :=
  "You are a knowledgeable medical assistant.\nThe user asked: \"" ++ question ++
  "\"\n\nI have limited information in my database that might be relevant:\n" ++ limitedContext ++
  "\n\nHowever, this information may be incomplete. Please provide a comprehensive, educational response about this medical topic, \nfocusing on "
  ++ medicalContext ++
  ". Always provide factual medical information, being clear when something is general knowledge \nversus specific medical advice (which should be sought from healthcare professionals).\n\nIf the question contains unclear or uncommon terminology, interpret what the user might be asking about and provide information \nthat would be most helpful, while clarifying the standard medical terms.\n\nQuestion: "
  ++ question ++ "\nAnswer:"

/-- Pure-knowledge medical prompt of `RAGSystem.query` (lines 233-243),
used when `chunks_found = 0` and the question is classified medical. -/
def noContextMedicalPrompt (question medicalContext : String) : String :=
  "You are a knowledgeable medical assistant.\nThe user asked: \"" ++ question ++
  "\"\n\nI don't have specific information about this in my database, but this appears to be a medical question about "
  ++ medicalContext ++
  ".\nPlease provide an educational, informative response based on general medical knowledge. Be clear, factual, and helpful.\n\nIf the question contains unclear or uncommon terminology (like non-standard abbreviations), interpret what the user might be \nasking about and provide information that would be most helpful, while clarifying the standard medical terms.\n\nQuestion: "
  ++ question ++ "\nAnswer:"

/-- Escalated re-generation prompt of the inline validator in `RAGSystem.query`
(lines 280-292). -/
def enhancedMedicalPrompt (question : String) : String :=
  "You are a knowledgeable medical assistant responding to: \"" ++ question ++
  "\"\n\nThis appears to be a medical question, and I need to provide a helpful, educational response.\nPlease provide detailed, factual medical information, using proper medical terminology.\nIf the question uses non-standard terms or abbreviations, interpret what the user might mean and provide clarification.\n\nFor example, if someone asks about \"HP levels in the body,\" explain that \"HP\" is not a standard medical abbreviation and suggest\nwhat they might be referring to (e.g., pH levels, Helicobacter pylori, hemoglobin percentage, etc.)\n\nAlways be helpful and educational in your response.\n\nQuestion: "
  ++ question ++ "\nAnswer:"

/-- Last-resort prompt of the top-level exception handler of `RAGSystem.query`
(lines 329-330); the 20-space indentation of the second line is part of the
f-string literal in the source. -/
def exceptionFallbackPrompt (question : String) : String :=
  "You are a medical assistant. The user asked: \"" ++ question ++
  "\"\n                    Please provide a brief but helpful response to this medical question."

/-- Canned answer of the exception handler when the last-resort generation
returns an empty string (line 336). -/
def exceptionEmptyFallbackText : String :=
  "This appears to be a medical question. Please try rephrasing or ask another medical question."

/-- Escalated re-generation prompt of `_ensure_valid_response` (lines 834-844);
the trailing space after "knowledge. " is in the source literal. -/
def evrFallbackPrompt (question medicalContext : String) : String :=
  "You are a medical assistant with extensive knowledge. \nThe user asked the following medical question: \""
  ++ question ++
  "\"\n\nYou MUST provide a helpful, informative response using your " ++ medicalContext ++
  ".\nBe educational and clear. Never say you don't know or can't answer.\nExplain medical terminology thoroughly. Format your answer professionally.\nKeep your response focused on medical information only.\nIf the question doesn't make complete sense medically, try to interpret what they might be asking about and provide useful information.\n\nQuestion: "
  ++ question ++ "\nAnswer:"

/-- Canned nursing fallback of `_ensure_valid_response` (line 857). -/
def nursingFallbackText : String :=
  "Nursing is a healthcare profession focused on the care of individuals, families, and communities to help them attain, maintain, or recover optimal health and quality of life. Nurses work in various settings including hospitals, clinics, schools, homes, and research institutions, providing care, education, and support to patients."

/-- Canned human-body fallback of `_ensure_valid_response` (line 859). -/
def humanBodyFallbackText : String :=
  "The human body is a complex biological system with numerous interconnected parts working together to maintain life. It consists of cells, tissues, organs, and organ systems that perform specific functions necessary for survival and well-being."

/-- Canned generic medical fallback of `_ensure_valid_response` (line 862). -/
def genericMedicalFallbackText : String :=
  "This appears to be a medical question. While I don't have specific information about this in my medical knowledge base, I'd encourage you to consult with a healthcare professional for accurate, personalized medical information."

/-- Base disclaimer of `RAGSystem.api_query` (lines 437-441). -/
def baseDisclaimer : String :=
  "You are MedBot, a medical information assistant. Provide educational medical information only, avoid diagnoses or treatment advice, and use a professional tone. If the user asks about a non-medical topic, respond exactly with: \"I am a medical bot and can only assist with medical-related topics.\""

/-- Final empty-answer guard text of `RAGSystem.api_query` (lines 475-478). -/
def apiEmptyGuardText : String :=
  "I couldn't retrieve medical context for this question yet. Based on general medical guidance, please consult a healthcare professional for personalized advice."

/-- Structured prompt of `RAGSystem.api_query` (lines 446-465). -/
def structuredPrompt (disclaimerText question ragContext conversationHistory extraInstructions : String) : String :=
  disclaimerText ++ "\n\nUser Query:\n" ++ question ++ "\n\nRelevant RAG Chunks:\n" ++ ragContext ++
  "\n\nPrevious Chat Context:\n"
  ++ (if conversationHistory != "" then conversationHistory else "No previous messages.") ++
  "\n\nExternal Knowledge Instructions:\n"
  ++ (if extraInstructions != "" then extraInstructions else "None provided.") ++
  "\n\nInstructions:\n- Use the provided RAG context first; if it is insufficient, rely on safe, general medical knowledge.\n- Maintain continuity with the prior conversation when present.\n- Be concise, clear, and educational.\n- Never leave a medical question unanswered.\nAnswer:"

/-! ### LLM client (from `core/llm_client.py`) -/

/-- Model of `LLMClient._generate_openai` (lines 130-174): on a successful API
call the stripped message content is returned; when the underlying API call
raises with message `e`, the method catches it and returns `"Error: " ++ e`.
The outcome of the (external) API call is the `Except` oracle argument. -/
def generateOpenai (apiResult : Except String String) : String :=
  match apiResult with
  | .ok content => pyStrip content
  | .error e => "Error: " ++ e

/-- Model of `LLMClient.generate_response` (lines 55-69): dispatch on the
provider; this function is total, it never propagates an exception. -/
def generateResponse (provider : String) (apiResult : Except String String) : String :=
  if provider == "openai" then generateOpenai apiResult
  else "Unsupported LLM provider: " ++ provider

/-! ### Conversation history (from `core/rag_system.py`) -/

/-- Model of `RAGSystem.add_to_conversation_history` (lines 64-88) acting on one
session's entry list: append, then trim to the most recent
`maxHistoryLength` entries via the Python slice `list[-maxHistoryLength:]`.
For `maxHistoryLength = 0` the Python slice `list[-0:]` is `list[0:]`,
i.e. no trimming happens; the model keeps that edge case. -/
def addToConversationHistory (maxHistoryLength : Nat) (hist : List HistEntry)
    (e : HistEntry) : List HistEntry :=
  if (hist ++ [e]).length > maxHistoryLength then
    if maxHistoryLength == 0 then hist ++ [e]
    else (hist ++ [e]).drop ((hist ++ [e]).length - maxHistoryLength)
  else hist ++ [e]

/-- Model of the history formatting of `RAGSystem.get_conversation_history`
(lines 56-62). -/
def formatHistory (hist : List HistEntry) : String :=
  hist.foldl (fun acc e =>
    acc ++ "User: " ++ e.user ++ "\n" ++ "Assistant: " ++ e.assistant ++ "\n\n") ""

/-- Model of the prior-chat formatting of `RAGSystem.api_query` (lines 395-400).
The source defaults a missing role key to `"user"`; the model's `ChatMsg`
always carries a role. -/
def formatChat (msgs : List ChatMsg) : String :=
  msgs.foldl (fun acc m => acc ++ pyCapitalize m.role ++ ": " ++ m.content ++ "\n") ""

/-! ### Validation (from `core/rag_system.py`) -/

/-- Inline validity test of `RAGSystem.query` (line 275): the answer is invalid
when it is empty, its stripped form is shorter than 20 characters, or its
lower-cased form contains one of the boilerplate phrases. -/
def answerIsInvalid (answer : String) : Bool :=
  answer == "" || (pyStrip answer).length < 20 ||
    invalidResponses.any fun p => pyIn p (pyLower answer)

/-- Validity test of `_ensure_valid_response` (line 823): threshold 10 instead
of 20, with an additional whitespace-only test. -/
def answerIsInvalidShort (answer : String) : Bool :=
  answer == "" || pyStrip answer == "" || (pyStrip answer).length < 10 ||
    invalidResponses.any fun p => pyIn p (pyLower answer)

/-- In-domain test of `_ensure_valid_response` (line 818), over its local
keyword list. -/
def evrIsMedicalQuestion (question : String) : Bool :=
  evrMedicalKeywords.any fun k => pyIn k (pyLower question)

/-- Medical-context extraction of `_ensure_valid_response` (lines 831-832). -/
def evrMedicalContextOf (question : String) : String :=
  let terms := evrMedicalKeywords.filter fun t => pyIn t (pyLower question)
  if !terms.isEmpty then String.intercalate ", " terms else "general medical knowledge"

/-- Model of `RAGSystem._ensure_valid_response` (lines 789-867).  The generator
oracle is an `Except` to mirror the `try/except` around the escalated
re-generation (`.error` models `generate_response` raising; with the actual
`LLMClient` it never does, so the canned branch is dead there).  The source's
`prompt_type` parameter is unused in the body and omitted here.  Note the
control flow of the source: when the escalated re-generation returns an
empty/whitespace answer *without* raising, no `return` fires inside the
`try`, and control falls through to the final `return answer`, returning the
original (possibly empty) answer. -/
def ensureValidResponse (answer question : String)
    (genE : String → Except String String) : String :=
  if answerIsInvalidShort answer then
    if evrIsMedicalQuestion question then
      match genE (evrFallbackPrompt question (evrMedicalContextOf question)) with
      | .ok fallbackAnswer =>
          if fallbackAnswer != "" && pyStrip fallbackAnswer != "" then fallbackAnswer
          else answer
      | .error _ =>
          if pyIn "nursing" (pyLower question) then nursingFallbackText
          else if pyIn "body" (pyLower question) || pyIn "human" (pyLower question) then
            humanBodyFallbackText
          else genericMedicalFallbackText
    else refusalAnswer
  else answer

/-! ### Classification resolution (from `core/rag_system.py`) -/

/-- Resolved `is_non_medical` flag of `RAGSystem.query` (lines 142-148): taken
from the LLM label when present, else from the keyword heuristic. -/
def resolveIsNonMedical (classif : Option String) (question : String) : Bool :=
  match classif with
  | some c => c == "non-medical"
  | none =>
      (nonMedicalKeywords.any fun k => pyIn k (pyLower question)) &&
        !(medicalKeywords.any fun k => pyIn k (pyLower question))

/-- Resolved `is_medical` flag of `RAGSystem.query` (lines 142-149). -/
def resolveIsMedical (classif : Option String) (question : String) : Bool :=
  match classif with
  | some c => c == "medical"
  | none => medicalKeywords.any fun k => pyIn k (pyLower question)

/-- Keyword fallback classification of `RAGSystem.api_query` (lines 421-427). -/
def keywordClassify (question : String) : String :=
  let lowerQuestion := pyLower question
  if (nonMedicalKeywords.any fun k => pyIn k lowerQuestion) &&
      !(medicalKeywords.any fun k => pyIn k lowerQuestion) then "non-medical"
  else if medicalKeywords.any fun k => pyIn k lowerQuestion then "medical"
  else "unknown"

/-- Resolved classification string of `RAGSystem.api_query` (lines 405-427). -/
def resolveClassification (classif : Option String) (question : String) : String :=
  match classif with
  | some c => c
  | none => keywordClassify question

/-! ### The query orchestrator `RAGSystem.query` (lines 105-364) -/

/-- Medical-context extraction of `RAGSystem.query` (lines 210-211). -/
def medicalContextOf (question : String) : String :=
  let medicalTerms := medicalKeywords.filter fun t => pyIn t (pyLower question)
  if !medicalTerms.isEmpty then String.intercalate ", " medicalTerms
  else "general medical knowledge"

/-- Joined chunk context (`"\n\n".join([res["content"] for res in results])`,
lines 195, 215, 252). -/
def joinChunks (results : List Chunk) : String :=
  String.intercalate "\n\n" (results.map Chunk.content)

/-- First-pass prompt selection of `RAGSystem.query` (lines 192-261):
CASE 1 (at least two chunks) uses the with-context template of the requested
style; CASE 2 (medical, fewer than two chunks) uses the directive medical
prompts; CASE 3 (ambiguous) uses whatever context exists or the no-context
template. -/
def firstPassPrompt (question promptType conversationHistory : String)
    (isMedical : Bool) (results : List Chunk) : String :=
  if results.length ≥ 2 then
    generatePrompt question (joinChunks results) promptType conversationHistory
  else if isMedical then
    if results.length > 0 then
      limitedContextMedicalPrompt question (joinChunks results) (medicalContextOf question)
    else
      noContextMedicalPrompt question (medicalContextOf question)
  else
    if results.length > 0 then
      generatePrompt question (joinChunks results) promptType conversationHistory
    else
      generateNoContextPrompt question promptType conversationHistory

/-- Top-level exception handler of `RAGSystem.query` (lines 313-364), reached
when the orchestration body raises with message `msg`.  The source re-declares
a keyword list and then assigns `is_medical = True` unconditionally (line 325),
so the `else` branch below (the refusal response with `success=true` and no
error field, lines 350-356) is dead code; it is kept to mirror the source.
The generator never raises (see `generateResponse`), so the inner `except`
of lines 342-349 is unreachable and not modelled. -/
def queryExceptionHandler (question msg : String) (gen : String → String) : QueryResult :=
  let is_medical := true
  if is_medical then
    let fallbackAnswer := gen (exceptionFallbackPrompt question)
    { answer := if fallbackAnswer != "" then fallbackAnswer else exceptionEmptyFallbackText,
      chunks_found := 0, query_time := 0,
      success := fallbackAnswer != "", error := some msg }
  else
    { answer := refusalAnswer, chunks_found := 0, query_time := 0,
      success := true, error := none }

/-- Observable outcome of one `RAGSystem.query` call: the returned result
dictionary, the prompts passed to `llm_client.generate_response` in order, the
number of `vector_store.search` calls, the session history after the call, and
whether `save_conversation` wrote the session. -/
structure QueryOutcome where
  result : QueryResult
  genPrompts : List String
  searchCalls : Nat
  histAfter : List HistEntry
  saved : Bool
deriving DecidableEq

/-- Model of `RAGSystem.query` (lines 105-364) on the text path
(`file_object = None`).  Inputs: the question, the requested prompt type, the
timestamp used for the new history entry, the LLM classification oracle, the
retrieval oracle (`.error msg` models `vector_store.search` raising), the
generation oracle, and the session's current history.  The unambiguous
non-medical gate returns the fixed refusal before retrieval; otherwise the
first-pass answer is generated, the inline validator may trigger one
unvalidated escalated re-generation (medical) or substitute the refusal
(ambiguous), the interaction is appended to the session history and saved, and
the result is returned with `success=true`.  A retrieval fault is caught by
`queryExceptionHandler`. -/
def query (maxHistoryLength : Nat) (question promptType ts : String)
    (classif : Option String) (searchRes : Except String (List Chunk))
    (gen : String → String) (hist : List HistEntry) : QueryOutcome :=
  let conversationHistory := formatHistory hist
  let isNonMedical := resolveIsNonMedical classif question
  let isMedical := resolveIsMedical classif question
  if isNonMedical then
    { result := { answer := refusalAnswer, chunks_found := 0, query_time := 0,
                  success := true, error := none },
      genPrompts := [], searchCalls := 0, histAfter := hist, saved := false }
  else
    match searchRes with
    | .error msg =>
        { result := queryExceptionHandler question msg gen,
          genPrompts := [exceptionFallbackPrompt question], searchCalls := 1,
          histAfter := hist, saved := false }
    | .ok results =>
        let prompt1 := firstPassPrompt question promptType conversationHistory isMedical results
        let answer0 := gen prompt1
        let escalate := answerIsInvalid answer0
        let answer1 :=
          if escalate then
            if isMedical then gen (enhancedMedicalPrompt question) else refusalAnswer
          else answer0
        let prompts :=
          if escalate && isMedical then [prompt1, enhancedMedicalPrompt question]
          else [prompt1]
        let histAfter := addToConversationHistory maxHistoryLength hist
          { user := question, assistant := answer1, timestamp := ts }
        { result := { answer := answer1, chunks_found := results.length, query_time := 0,
                      success := true, error := none },
          genPrompts := prompts, searchCalls := 1,
          histAfter := histAfter, saved := !histAfter.isEmpty }

/-! ### The structured entry point `RAGSystem.api_query` (lines 366-500) -/

/-- Response payload of `RAGSystem.api_query`.  The early empty-question return
(lines 385-390) only carries `success`, `error` and `answer` in the source; the
other fields are filled with inert defaults in the model. -/
structure ApiPayload where
  success : Bool
  answer : Option String
  error : Option String
  classification : String
  chunks_found : Nat
  session_id : String
  disclaimer : String
  conversation_history_included : Bool
  rag_context : String
  context_snippets : List Chunk
deriving DecidableEq

/-- Observable outcome of one `RAGSystem.api_query` call. -/
structure ApiOutcome where
  payload : ApiPayload
  searchCalls : Nat
  histAfter : List HistEntry
  saved : Bool
deriving DecidableEq

/-- Model of `RAGSystem.api_query` (lines 366-500).  Retrieval is executed
unconditionally (line 432) before the non-medical gate; a non-medical
classification substitutes the fixed refusal for the answer and skips both
generation and the history append/save, while the diagnostic fields are still
populated from the executed retrieval. -/
def apiQuery (maxHistoryLength : Nat) (question sessionId ts : String)
    (includeHistory : Bool) (disclaimer : Option String)
    (priorChatHistory : Option (List ChatMsg))
    (externalKnowledgeInstructions : Option String)
    (classif : Option String) (results : List Chunk)
    (gen : String → String) (hist : List HistEntry) : ApiOutcome :=
  if question == "" || pyStrip question == "" then
    { payload := { success := false, answer := none, error := some "Query text is required.",
                   classification := "", chunks_found := 0, session_id := sessionId,
                   disclaimer := "", conversation_history_included := includeHistory,
                   rag_context := "", context_snippets := [] },
      searchCalls := 0, histAfter := hist, saved := false }
  else
    let conversationHistory :=
      if (match priorChatHistory with | some l => !l.isEmpty | none => false) then
        formatChat (priorChatHistory.getD [])
      else if includeHistory then formatHistory hist
      else ""
    let classification := resolveClassification classif question
    let isNonMedical := classification == "non-medical"
    let contextChunks := results.map Chunk.content
    let ragContext :=
      if !contextChunks.isEmpty then String.intercalate "\n\n" contextChunks
      else "No context retrieved from the knowledge base."
    let disclaimerText :=
      match disclaimer with
      | some d =>
          if d != "" then baseDisclaimer ++ "\n\nAdditional context: " ++ pyStrip d
          else baseDisclaimer
      | none => baseDisclaimer
    let extraInstructions := externalKnowledgeInstructions.getD ""
    let finalClassification := if classification == "" then "unknown" else classification
    if isNonMedical then
      { payload := { success := true, answer := some refusalAnswer, error := none,
                     classification := finalClassification,
                     chunks_found := results.length, session_id := sessionId,
                     disclaimer := disclaimerText,
                     conversation_history_included := includeHistory,
                     rag_context := ragContext, context_snippets := results },
        searchCalls := 1, histAfter := hist, saved := false }
    else
      let answer0 := gen (structuredPrompt disclaimerText question ragContext
        conversationHistory extraInstructions)
      let answer1 := ensureValidResponse answer0 question (fun p => Except.ok (gen p))
      let answerFinal :=
        if answer1 == "" || pyStrip answer1 == "" then apiEmptyGuardText else answer1
      let histAfter := addToConversationHistory maxHistoryLength hist
        { user := question, assistant := answerFinal, timestamp := ts }
      { payload := { success := true, answer := some answerFinal, error := none,
                     classification := finalClassification,
                     chunks_found := results.length, session_id := sessionId,
                     disclaimer := disclaimerText,
                     conversation_history_included := includeHistory,
                     rag_context := ragContext, context_snippets := results },
        searchCalls := 1, histAfter := histAfter, saved := !histAfter.isEmpty }

/-! ### Substring infrastructure -/

theorem strData_append (s t : String) : (s ++ t).data = s.data ++ t.data := by
  cases s; cases t; rfl

theorem leadMatch_self_append (xs ys : List Char) : leadMatch xs (xs ++ ys) = true := by
  induction xs with
  | nil => rfl
  | cons a as ih => simp [leadMatch, ih]

theorem occursInChars_of_leadMatch {n hay : List Char} (h : leadMatch n hay = true) :
    occursInChars n hay = true := by
  cases hay with
  | nil => simpa [occursInChars] using h
  | cons c rest => simp [occursInChars, h]

theorem occursInChars_of_surround (u n v : List Char) :
    occursInChars n (u ++ (n ++ v)) = true := by
  induction u with
  | nil => exact occursInChars_of_leadMatch (leadMatch_self_append n v)
  | cons c u ih => simp [occursInChars, ih]

theorem pyIn_surround (pre mid post : String) : pyIn mid (pre ++ mid ++ post) = true := by
  unfold pyIn
  have h : (pre ++ mid ++ post).data = pre.data ++ (mid.data ++ post.data) := by
    rw [strData_append, strData_append, List.append_assoc]
  rw [h]
  exact occursInChars_of_surround pre.data mid.data post.data

theorem pyIn_generatePrompt (question context promptType conversationHistory : String) :
    pyIn context (generatePrompt question context promptType conversationHistory) = true := by
  unfold generatePrompt medicalRagPrompt detailedRagPrompt basicRagPrompt
  split
  · exact pyIn_surround _ _ _
  · split
    · exact pyIn_surround _ _ _
    · exact pyIn_surround _ _ _

/-! ### History lemmas -/

theorem addToConversationHistory_length_le (maxHistoryLength : Nat)
    (hmax : 0 < maxHistoryLength) (s : List HistEntry) (e : HistEntry) :
    (addToConversationHistory maxHistoryLength s e).length ≤ maxHistoryLength := by
  unfold addToConversationHistory
  have h0 : (maxHistoryLength == 0) = false := beq_eq_false_iff_ne.mpr (by omega)
  rw [h0]
  by_cases hgt : (s ++ [e]).length > maxHistoryLength
  · rw [if_pos hgt, if_neg (by simp)]
    simp only [List.length_drop]
    omega
  · rw [if_neg hgt]
    omega

theorem foldl_addToConversationHistory (maxHistoryLength : Nat)
    (hmax : 0 < maxHistoryLength) (entries : List HistEntry) :
    entries.foldl (addToConversationHistory maxHistoryLength) [] =
      entries.drop (entries.length - maxHistoryLength) := by
  induction entries using List.reverseRecOn with
  | nil => simp
  | append_singleton qs e ih =>
    rw [List.foldl_append, List.foldl_cons, List.foldl_nil, ih]
    unfold addToConversationHistory
    have h0 : (maxHistoryLength == 0) = false := beq_eq_false_iff_ne.mpr (by omega)
    rw [h0]
    by_cases hlen : qs.length < maxHistoryLength
    · have h1 : qs.length - maxHistoryLength = 0 := by omega
      rw [h1, List.drop_zero]
      have h3 : ¬ ((qs ++ [e]).length > maxHistoryLength) := by
        simp only [List.length_append, List.length_cons, List.length_nil]
        omega
      rw [if_neg h3]
      have h2 : (qs ++ [e]).length - maxHistoryLength = 0 := by
        simp only [List.length_append, List.length_cons, List.length_nil]
        omega
      rw [h2, List.drop_zero]
    · have hslen : (qs.drop (qs.length - maxHistoryLength)).length = maxHistoryLength := by
        simp only [List.length_drop]
        omega
      have hgt : (qs.drop (qs.length - maxHistoryLength) ++ [e]).length > maxHistoryLength := by
        simp only [List.length_append, List.length_cons, List.length_nil, hslen]
        omega
      rw [if_pos hgt, if_neg (by simp)]
      have hd1 : (qs.drop (qs.length - maxHistoryLength) ++ [e]).length - maxHistoryLength = 1 := by
        simp only [List.length_append, List.length_cons, List.length_nil, hslen]
        omega
      rw [hd1]
      rw [List.drop_append_of_le_length
        (show 1 ≤ (qs.drop (qs.length - maxHistoryLength)).length by omega)]
      rw [List.drop_drop]
      rw [List.drop_append_of_le_length
        (show (qs ++ [e]).length - maxHistoryLength ≤ qs.length by
          simp only [List.length_append, List.length_cons, List.length_nil]
          omega)]
      have hidx : qs.length - maxHistoryLength + 1 = (qs ++ [e]).length - maxHistoryLength := by
        simp only [List.length_append, List.length_cons, List.length_nil]
        omega
      rw [hidx]

/-! ### Orchestrator lemmas -/

theorem resolveIsNonMedical_eq_false_of_medical {classif : Option String} {question : String}
    (h : resolveIsMedical classif question = true) :
    resolveIsNonMedical classif question = false := by
  cases classif with
  | none =>
      have h' : (medicalKeywords.any fun k => pyIn k (pyLower question)) = true := h
      show ((nonMedicalKeywords.any fun k => pyIn k (pyLower question)) &&
        !(medicalKeywords.any fun k => pyIn k (pyLower question))) = false
      rw [h']
      simp
  | some c =>
      have hc : c = "medical" := eq_of_beq h
      subst hc
      rfl

theorem queryExceptionHandler_eq (question msg : String) (gen : String → String) :
    queryExceptionHandler question msg gen =
      { answer := if gen (exceptionFallbackPrompt question) != "" then
            gen (exceptionFallbackPrompt question) else exceptionEmptyFallbackText,
        chunks_found := 0, query_time := 0,
        success := gen (exceptionFallbackPrompt question) != "",
        error := some msg } := rfl

theorem query_err_eq (maxHistoryLength : Nat) (question promptType ts msg : String)
    (classif : Option String) (gen : String → String) (hist : List HistEntry)
    (hgate : resolveIsNonMedical classif question = false) :
    query maxHistoryLength question promptType ts classif (Except.error msg) gen hist =
      { result := queryExceptionHandler question msg gen,
        genPrompts := [exceptionFallbackPrompt question], searchCalls := 1,
        histAfter := hist, saved := false } := by
  unfold query
  rw [hgate]
  rfl

theorem query_ok_eq (maxHistoryLength : Nat) (question promptType ts : String)
    (classif : Option String) (results : List Chunk) (gen : String → String)
    (hist : List HistEntry)
    (hgate : resolveIsNonMedical classif question = false) :
    query maxHistoryLength question promptType ts classif (Except.ok results) gen hist =
      (let prompt1 := firstPassPrompt question promptType (formatHistory hist)
          (resolveIsMedical classif question) results
       let answer0 := gen prompt1
       let escalate := answerIsInvalid answer0
       let answer1 :=
         if escalate then
           if resolveIsMedical classif question then gen (enhancedMedicalPrompt question)
           else refusalAnswer
         else answer0
       let prompts :=
         if escalate && resolveIsMedical classif question then
           [prompt1, enhancedMedicalPrompt question]
         else [prompt1]
       let histAfter := addToConversationHistory maxHistoryLength hist
         { user := question, assistant := answer1, timestamp := ts }
       { result := { answer := answer1, chunks_found := results.length, query_time := 0,
                     success := true, error := none },
         genPrompts := prompts, searchCalls := 1,
         histAfter := histAfter, saved := !histAfter.isEmpty }) := by
  unfold query
  rw [hgate]
  rfl

/-! ### Claim theorems -/

/-- C2: for every question classified unambiguously non-medical (by the LLM
label, or by the keyword heuristic when the label is unavailable) with no file
attached, `RAGSystem.query` returns exactly the fixed refusal sentence with
`chunks_found = 0` and `success = true`, leaves the history untouched, and
performs no retrieval call and no answer-generation call. -/
theorem query_nonMedical_shortCircuit (maxHistoryLength : Nat)
    (question promptType ts : String) (classif : Option String)
    (searchRes : Except String (List Chunk)) (gen : String → String)
    (hist : List HistEntry)
    (hnm : resolveIsNonMedical classif question = true) :
    query maxHistoryLength question promptType ts classif searchRes gen hist =
      { result := { answer := refusalAnswer, chunks_found := 0, query_time := 0,
                    success := true, error := none },
        genPrompts := [], searchCalls := 0, histAfter := hist, saved := false } := by
  unfold query
  simp [hnm]

/-- C2 witness: a concrete unambiguously non-medical call short-circuits. -/
theorem query_nonMedical_shortCircuit_witness :
    resolveIsNonMedical (some "non-medical") "best pizza toppings" = true ∧
    query 10 "best pizza toppings" "basic" "t0" (some "non-medical")
        (Except.ok []) (fun _ => "unused") [] =
      { result := { answer := refusalAnswer, chunks_found := 0, query_time := 0,
                    success := true, error := none },
        genPrompts := [], searchCalls := 0, histAfter := [], saved := false } :=
  ⟨by decide,
   query_nonMedical_shortCircuit 10 "best pizza toppings" "basic" "t0" (some "non-medical")
     (Except.ok []) (fun _ => "unused") [] (by decide)⟩

/-- C4: with a positive configured maximum (the default is 10), after N
successful appends starting from an empty session the history is exactly the
chronological suffix of the inserted entries of length `min N max` (oldest
entries evicted first), and every single append-with-trim leaves at most `max`
entries, whatever the prior state. -/
theorem conversationHistory_bounded (maxHistoryLength : Nat) (entries : List HistEntry)
    (hmax : 0 < maxHistoryLength) :
    (entries.foldl (addToConversationHistory maxHistoryLength) []).length
        = min entries.length maxHistoryLength ∧
    entries.foldl (addToConversationHistory maxHistoryLength) []
        = entries.drop (entries.length - maxHistoryLength) ∧
    ∀ (s : List HistEntry) (e : HistEntry),
      (addToConversationHistory maxHistoryLength s e).length ≤ maxHistoryLength := by
  refine ⟨?_, foldl_addToConversationHistory maxHistoryLength hmax entries,
    addToConversationHistory_length_le maxHistoryLength hmax⟩
  rw [foldl_addToConversationHistory maxHistoryLength hmax entries]
  simp only [List.length_drop]
  omega

/-- C4 witness: twelve appends into a max-10 session keep the last ten entries
in insertion order. -/
theorem conversationHistory_bounded_witness :
    0 < 10 ∧
    (((List.range 12).map fun i =>
        ({ user := toString i, assistant := "a", timestamp := "" } : HistEntry)).foldl
          (addToConversationHistory 10) []).length
        = min ((List.range 12).map fun i =>
            ({ user := toString i, assistant := "a", timestamp := "" } : HistEntry)).length 10 ∧
    ((List.range 12).map fun i =>
        ({ user := toString i, assistant := "a", timestamp := "" } : HistEntry)).foldl
          (addToConversationHistory 10) []
        = ((List.range 12).map fun i =>
            ({ user := toString i, assistant := "a", timestamp := "" } : HistEntry)).drop
            (((List.range 12).map fun i =>
              ({ user := toString i, assistant := "a", timestamp := "" } : HistEntry)).length - 10) ∧
    ∀ (s : List HistEntry) (e : HistEntry),
      (addToConversationHistory 10 s e).length ≤ 10 :=
  ⟨by decide,
   conversationHistory_bounded 10 ((List.range 12).map fun i =>
     ({ user := toString i, assistant := "a", timestamp := "" } : HistEntry)) (by decide)⟩

/-- C5: the keyword fallback classifier obeys exactly the stated precedence:
a question containing a non-medical term and no medical term is non-medical; a
question containing a medical term is medical (even if a non-medical term also
occurs); a question containing neither is unknown. -/
theorem keywordClassify_precedence (question : String) :
    ((nonMedicalKeywords.any fun k => pyIn k (pyLower question)) = true →
      (medicalKeywords.any fun k => pyIn k (pyLower question)) = false →
      keywordClassify question = "non-medical") ∧
    ((medicalKeywords.any fun k => pyIn k (pyLower question)) = true →
      keywordClassify question = "medical") ∧
    ((nonMedicalKeywords.any fun k => pyIn k (pyLower question)) = false →
      (medicalKeywords.any fun k => pyIn k (pyLower question)) = false →
      keywordClassify question = "unknown") := by
  refine ⟨fun h1 h2 => ?_, fun h1 => ?_, fun h1 h2 => ?_⟩
  · simp [keywordClassify, h1, h2]
  · simp [keywordClassify, h1]
  · simp [keywordClassify, h1, h2]

/-- C5 witness: a concrete non-medical-keyword question with no medical keyword
is classified non-medical by the fallback. -/
theorem keywordClassify_precedence_witness :
    (nonMedicalKeywords.any fun k => pyIn k (pyLower "I love video games and sports")) = true ∧
    (medicalKeywords.any fun k => pyIn k (pyLower "I love video games and sports")) = false ∧
    keywordClassify "I love video games and sports" = "non-medical" :=
  ⟨by decide, by decide,
   (keywordClassify_precedence "I love video games and sports").1 (by decide) (by decide)⟩

/-- C7: whenever retrieval returns at least two chunks (and the non-medical
gate does not fire), the first prompt passed to the generator is the
with-context template for the requested style, and it contains, as a
contiguous substring, the blank-line-joined concatenation of exactly those
chunks' content fields in retrieval order. -/
theorem query_prompt_contains_context (maxHistoryLength : Nat)
    (question promptType ts : String) (classif : Option String)
    (results : List Chunk) (gen : String → String) (hist : List HistEntry)
    (hgate : resolveIsNonMedical classif question = false)
    (hres : 2 ≤ results.length) :
    (query maxHistoryLength question promptType ts classif (Except.ok results)
        gen hist).genPrompts.headD ""
      = generatePrompt question (joinChunks results) promptType (formatHistory hist) ∧
    pyIn (joinChunks results)
      ((query maxHistoryLength question promptType ts classif (Except.ok results)
          gen hist).genPrompts.headD "") = true := by
  have hfp : firstPassPrompt question promptType (formatHistory hist)
      (resolveIsMedical classif question) results
      = generatePrompt question (joinChunks results) promptType (formatHistory hist) := by
    unfold firstPassPrompt
    rw [if_pos hres]
  have hhead : (query maxHistoryLength question promptType ts classif (Except.ok results)
      gen hist).genPrompts.headD ""
      = firstPassPrompt question promptType (formatHistory hist)
          (resolveIsMedical classif question) results := by
    rw [query_ok_eq maxHistoryLength question promptType ts classif results gen hist hgate]
    simp only []
    split
    · rfl
    · rfl
  rw [hhead, hfp]
  exact ⟨rfl, pyIn_generatePrompt question (joinChunks results) promptType (formatHistory hist)⟩

/-- C7 witness: a concrete two-chunk medical query whose first generator prompt
contains both chunk contents joined by a blank line, in order. -/
theorem query_prompt_contains_context_witness :
    resolveIsNonMedical (some "medical") "What are symptoms of diabetes?" = false ∧
    2 ≤ ([{ content := "Diabetes chunk one.", metadata := [], similarity := none },
          { content := "Diabetes chunk two.", metadata := [], similarity := none }] : List Chunk).length ∧
    ((query 10 "What are symptoms of diabetes?" "basic" "t0" (some "medical")
        (Except.ok [{ content := "Diabetes chunk one.", metadata := [], similarity := none },
                    { content := "Diabetes chunk two.", metadata := [], similarity := none }])
        (fun _ => "ans") []).genPrompts.headD ""
      = generatePrompt "What are symptoms of diabetes?"
          (joinChunks [{ content := "Diabetes chunk one.", metadata := [], similarity := none },
                       { content := "Diabetes chunk two.", metadata := [], similarity := none }])
          "basic" (formatHistory []) ∧
    pyIn (joinChunks [{ content := "Diabetes chunk one.", metadata := [], similarity := none },
                      { content := "Diabetes chunk two.", metadata := [], similarity := none }])
      ((query 10 "What are symptoms of diabetes?" "basic" "t0" (some "medical")
          (Except.ok [{ content := "Diabetes chunk one.", metadata := [], similarity := none },
                      { content := "Diabetes chunk two.", metadata := [], similarity := none }])
          (fun _ => "ans") []).genPrompts.headD "") = true) :=
  ⟨by decide, by decide,
   query_prompt_contains_context 10 "What are symptoms of diabetes?" "basic" "t0"
     (some "medical")
     [{ content := "Diabetes chunk one.", metadata := [], similarity := none },
      { content := "Diabetes chunk two.", metadata := [], similarity := none }]
     (fun _ => "ans") [] (by decide) (by decide)⟩

/-- C1 (amended): for an in-domain (medical) question, every result returned by
`RAGSystem.query` with success = true either passes the 20-character call
site's validity test (non-empty, stripped length at least 20, and containing
none of the six boilerplate phrases) or is the unvalidated output of the single
fallback generation — the escalated re-generation inline, or the last-resort
generation on the fault path. -/
theorem query_success_valid_or_escalated (maxHistoryLength : Nat)
    (question promptType ts : String) (classif : Option String)
    (searchRes : Except String (List Chunk)) (gen : String → String)
    (hist : List HistEntry)
    (hmed : resolveIsMedical classif question = true)
    (hsucc : (query maxHistoryLength question promptType ts classif searchRes
        gen hist).result.success = true) :
    answerIsInvalid (query maxHistoryLength question promptType ts classif searchRes
        gen hist).result.answer = false ∨
    (query maxHistoryLength question promptType ts classif searchRes
        gen hist).result.answer = gen (enhancedMedicalPrompt question) ∨
    (query maxHistoryLength question promptType ts classif searchRes
        gen hist).result.answer = gen (exceptionFallbackPrompt question) := by
  have hgate := resolveIsNonMedical_eq_false_of_medical hmed
  cases searchRes with
  | error msg =>
      rw [query_err_eq maxHistoryLength question promptType ts msg classif gen hist hgate,
        queryExceptionHandler_eq] at hsucc ⊢
      right; right
      simp only [] at hsucc ⊢
      rw [if_pos hsucc]
  | ok results =>
      rw [query_ok_eq maxHistoryLength question promptType ts classif results gen hist hgate]
      rw [hmed]
      by_cases hesc : answerIsInvalid (gen (firstPassPrompt question promptType
          (formatHistory hist) true results)) = true
      · right; left
        simp [hesc]
      · left
        simp only [Bool.not_eq_true] at hesc
        simp only [hesc, Bool.false_eq_true, if_false]

/-- C1 witness: a concrete medical query with a long, clean generated answer is
returned satisfying the validity test. -/
theorem query_success_valid_or_escalated_witness :
    resolveIsMedical (some "medical") "health" = true ∧
    (query 10 "health" "basic" "t0" (some "medical") (Except.ok [])
        (fun _ => "This is a detailed medical explanation about health.") []).result.success = true ∧
    (answerIsInvalid (query 10 "health" "basic" "t0" (some "medical") (Except.ok [])
        (fun _ => "This is a detailed medical explanation about health.") []).result.answer = false ∨
    (query 10 "health" "basic" "t0" (some "medical") (Except.ok [])
        (fun _ => "This is a detailed medical explanation about health.") []).result.answer
      = (fun _ => "This is a detailed medical explanation about health.") (enhancedMedicalPrompt "health") ∨
    (query 10 "health" "basic" "t0" (some "medical") (Except.ok [])
        (fun _ => "This is a detailed medical explanation about health.") []).result.answer
      = (fun _ => "This is a detailed medical explanation about health.") (exceptionFallbackPrompt "health")) :=
  ⟨by decide, by decide,
   query_success_valid_or_escalated 10 "health" "basic" "t0" (some "medical") (Except.ok [])
     (fun _ => "This is a detailed medical explanation about health.") [] (by decide) (by decide)⟩

/-- C1 counterexample: with the generator returning the empty string on every
call, a medical question yields success = true together with an empty answer —
the escalated re-generation is returned without re-validation, so the claimed
invariant (non-empty, at least 20 characters, phrase-free) fails. -/
theorem query_success_empty_counterexample :
    (query 10 "health" "basic" "t0" (some "medical") (Except.ok [])
        (fun _ => "") []).result.success = true ∧
    (query 10 "health" "basic" "t0" (some "medical") (Except.ok [])
        (fun _ => "") []).result.answer = "" := by
  exact ⟨rfl, rfl⟩

/-- C6 (amended): any retrieval fault inside `RAGSystem.query` is caught at the
orchestrator boundary (the model is total, nothing propagates); exactly one
last-resort generation with the minimal prompt is attempted; the returned
result carries the captured error message, and `success` is `false` exactly
when that last-resort generation returns an empty string (otherwise `success`
is `true`). -/
theorem query_fault_lastResort (maxHistoryLength : Nat)
    (question promptType ts msg : String) (classif : Option String)
    (gen : String → String) (hist : List HistEntry)
    (hgate : resolveIsNonMedical classif question = false) :
    (query maxHistoryLength question promptType ts classif (Except.error msg)
        gen hist).result.error = some msg ∧
    (query maxHistoryLength question promptType ts classif (Except.error msg)
        gen hist).result.success = (gen (exceptionFallbackPrompt question) != "") ∧
    (query maxHistoryLength question promptType ts classif (Except.error msg)
        gen hist).result.answer
      = (if gen (exceptionFallbackPrompt question) != "" then
          gen (exceptionFallbackPrompt question) else exceptionEmptyFallbackText) ∧
    (query maxHistoryLength question promptType ts classif (Except.error msg)
        gen hist).genPrompts = [exceptionFallbackPrompt question] := by
  rw [query_err_eq maxHistoryLength question promptType ts msg classif gen hist hgate,
    queryExceptionHandler_eq]
  exact ⟨rfl, rfl, rfl, rfl⟩

/-- C6 witness: a concrete caught fault attaches the error message, performs
one last-resort generation and reports its non-emptiness as success. -/
theorem query_fault_lastResort_witness :
    resolveIsNonMedical (some "medical") "health" = false ∧
    ((query 10 "health" "basic" "t0" (some "medical") (Except.error "io failure")
        (fun _ => "A short helpful note.") []).result.error = some "io failure" ∧
    (query 10 "health" "basic" "t0" (some "medical") (Except.error "io failure")
        (fun _ => "A short helpful note.") []).result.success
      = ((fun _ => "A short helpful note.") (exceptionFallbackPrompt "health") != "") ∧
    (query 10 "health" "basic" "t0" (some "medical") (Except.error "io failure")
        (fun _ => "A short helpful note.") []).result.answer
      = (if (fun _ => "A short helpful note.") (exceptionFallbackPrompt "health") != "" then
          (fun _ => "A short helpful note.") (exceptionFallbackPrompt "health")
         else exceptionEmptyFallbackText) ∧
    (query 10 "health" "basic" "t0" (some "medical") (Except.error "io failure")
        (fun _ => "A short helpful note.") []).genPrompts
      = [exceptionFallbackPrompt "health"]) :=
  ⟨by decide,
   query_fault_lastResort 10 "health" "basic" "t0" "io failure" (some "medical")
     (fun _ => "A short helpful note.") [] (by decide)⟩

/-- C6 counterexample: a caught retrieval fault whose last-resort generation
returns non-empty text yields success = true, refuting the claim that the
returned result carries success = false. -/
theorem query_fault_success_counterexample :
    (query 10 "health" "basic" "t0" (some "medical") (Except.error "boom")
        (fun _ => "Here is a helpful medical response for you.") []).result.success = true ∧
    (query 10 "health" "basic" "t0" (some "medical") (Except.error "boom")
        (fun _ => "Here is a helpful medical response for you.") []).result.error
      = some "boom" := by
  exact ⟨rfl, rfl⟩

/-- C8: the top-level exception handler assigns `is_medical = True`
unconditionally, so its non-medical branch — which would return the fixed
refusal with success = true and no error field — is unreachable: for every
question and every caught fault, the handler output is the medical-style
last-resort response, always carrying the captured error message, and the
full query result on a fault equals exactly that handler output. -/
theorem query_fault_always_medicalBranch (maxHistoryLength : Nat)
    (question promptType ts msg : String) (classif : Option String)
    (gen : String → String) (hist : List HistEntry)
    (hgate : resolveIsNonMedical classif question = false) :
    queryExceptionHandler question msg gen =
      { answer := if gen (exceptionFallbackPrompt question) != "" then
            gen (exceptionFallbackPrompt question) else exceptionEmptyFallbackText,
        chunks_found := 0, query_time := 0,
        success := gen (exceptionFallbackPrompt question) != "", error := some msg } ∧
    (query maxHistoryLength question promptType ts classif (Except.error msg)
        gen hist).result = queryExceptionHandler question msg gen ∧
    (queryExceptionHandler question msg gen).error ≠ none := by
  refine ⟨queryExceptionHandler_eq question msg gen, ?_, ?_⟩
  · rw [query_err_eq maxHistoryLength question promptType ts msg classif gen hist hgate]
  · rw [queryExceptionHandler_eq]
    simp

/-- C8 witness: a concrete caught fault takes the medical handler branch and
attaches the error. -/
theorem query_fault_always_medicalBranch_witness :
    resolveIsNonMedical none "hello there friend" = false ∧
    (queryExceptionHandler "hello there friend" "oops" (fun _ => "Reply text.") =
      { answer := if (fun _ => "Reply text.") (exceptionFallbackPrompt "hello there friend") != "" then
            (fun _ => "Reply text.") (exceptionFallbackPrompt "hello there friend")
          else exceptionEmptyFallbackText,
        chunks_found := 0, query_time := 0,
        success := (fun _ => "Reply text.") (exceptionFallbackPrompt "hello there friend") != "",
        error := some "oops" } ∧
    (query 10 "hello there friend" "basic" "t0" none (Except.error "oops")
        (fun _ => "Reply text.") []).result
      = queryExceptionHandler "hello there friend" "oops" (fun _ => "Reply text.") ∧
    (queryExceptionHandler "hello there friend" "oops" (fun _ => "Reply text.")).error ≠ none) :=
  ⟨by decide,
   query_fault_always_medicalBranch 10 "hello there friend" "basic" "t0" "oops" none
     (fun _ => "Reply text.") [] (by decide)⟩

/-- C3 (code evaluation at the failing input): `_ensure_valid_response` can
return the empty string for an in-domain question, contradicting its own
docstring and the spec contract: with the invalid input answer `""` and the
medical question `"health"`, when the escalated re-generation returns `""`
without raising, no return fires inside the `try` block and control falls
through to the final `return answer`, yielding the original empty answer. -/
theorem ensureValidResponse_empty_fallthrough :
    evrIsMedicalQuestion "health" = true ∧
    ensureValidResponse "" "health" (fun _ => Except.ok "") = "" := by
  exact ⟨rfl, rfl⟩

/-- C9 (amended): `generate_response` is total and, when the underlying API
call raises with message `msg`, returns the literal `"Error: " ++ msg`; this
string never *equals* one of the six boilerplate phrases; and whenever its
stripped length is at least 20 and its lower-cased form *contains* no
boilerplate phrase, the query path returns it verbatim as the answer with
success = true. -/
theorem generateResponse_error_passthrough (maxHistoryLength : Nat)
    (question promptType ts msg : String) (classif : Option String)
    (results : List Chunk) (hist : List HistEntry)
    (hgate : resolveIsNonMedical classif question = false)
    (hlen : 20 ≤ (pyStrip ("Error: " ++ msg)).length)
    (hphr : (invalidResponses.any fun p => pyIn p (pyLower ("Error: " ++ msg))) = false) :
    generateResponse "openai" (Except.error msg) = "Error: " ++ msg ∧
    (∀ p ∈ invalidResponses, "Error: " ++ msg ≠ p) ∧
    (query maxHistoryLength question promptType ts classif (Except.ok results)
        (fun _ => generateResponse "openai" (Except.error msg)) hist).result.answer
      = "Error: " ++ msg ∧
    (query maxHistoryLength question promptType ts classif (Except.ok results)
        (fun _ => generateResponse "openai" (Except.error msg)) hist).result.success = true := by
  have hhead : ("Error: " ++ msg).data.head? = some 'E' := by
    rw [strData_append]; rfl
  have hne : ∀ p ∈ invalidResponses, "Error: " ++ msg ≠ p := by
    intro p hp heq
    rw [heq] at hhead
    fin_cases hp <;> exact absurd hhead (by decide)
  have hne0 : (("Error: " ++ msg) == "") = false := by
    refine beq_eq_false_iff_ne.mpr fun h => ?_
    rw [h] at hhead
    exact absurd hhead (by decide)
  have hinv : answerIsInvalid ("Error: " ++ msg) = false := by
    unfold answerIsInvalid
    rw [hne0, hphr]
    have h2 : decide ((pyStrip ("Error: " ++ msg)).length < 20) = false := by
      simp only [decide_eq_false_iff_not]
      omega
    rw [h2]
    rfl
  have hgen : generateResponse "openai" (Except.error msg) = "Error: " ++ msg := rfl
  have hq := query_ok_eq maxHistoryLength question promptType ts classif results
    (fun _ => generateResponse "openai" (Except.error msg)) hist hgate
  refine ⟨rfl, hne, ?_, ?_⟩
  · rw [hq]
    simp only [hgen, hinv, Bool.false_eq_true, if_false]
  · rw [hq]

/-- C9 witness: a clean API failure message long enough to pass validation is
returned to the caller verbatim with success = true. -/
theorem generateResponse_error_passthrough_witness :
    resolveIsNonMedical (some "medical") "health" = false ∧
    20 ≤ (pyStrip ("Error: " ++ "connection timed out after thirty seconds")).length ∧
    (invalidResponses.any fun p =>
      pyIn p (pyLower ("Error: " ++ "connection timed out after thirty seconds"))) = false ∧
    (generateResponse "openai" (Except.error "connection timed out after thirty seconds")
        = "Error: " ++ "connection timed out after thirty seconds" ∧
    (∀ p ∈ invalidResponses,
      "Error: " ++ "connection timed out after thirty seconds" ≠ p) ∧
    (query 10 "health" "basic" "t0" (some "medical") (Except.ok [])
        (fun _ => generateResponse "openai"
          (Except.error "connection timed out after thirty seconds")) []).result.answer
      = "Error: " ++ "connection timed out after thirty seconds" ∧
    (query 10 "health" "basic" "t0" (some "medical") (Except.ok [])
        (fun _ => generateResponse "openai"
          (Except.error "connection timed out after thirty seconds")) []).result.success = true) :=
  ⟨by decide, by decide, by decide,
   generateResponse_error_passthrough 10 "health" "basic" "t0"
     "connection timed out after thirty seconds" (some "medical") [] []
     (by decide) (by decide) (by decide)⟩

/-- C9 counterexample: when the API failure message itself contains a
boilerplate phrase, the error string has stripped length of at least 20 yet the
query path does not return it verbatim — here the validator fires and the
ambiguous branch substitutes the fixed refusal instead. -/
theorem generateResponse_error_counterexample :
    20 ≤ (pyStrip ("Error: " ++ "i don't know the details of this request")).length ∧
    (query 10 "tell me something interesting" "basic" "t0" none
        (Except.ok [{ content := "c1", metadata := [], similarity := none },
                    { content := "c2", metadata := [], similarity := none }])
        (fun _ => generateResponse "openai"
          (Except.error "i don't know the details of this request")) []).result.success = true ∧
    (query 10 "tell me something interesting" "basic" "t0" none
        (Except.ok [{ content := "c1", metadata := [], similarity := none },
                    { content := "c2", metadata := [], similarity := none }])
        (fun _ => generateResponse "openai"
          (Except.error "i don't know the details of this request")) []).result.answer
      = refusalAnswer ∧
    refusalAnswer ≠ "Error: " ++ "i don't know the details of this request" := by
  refine ⟨by decide, ?_, ?_, by decide⟩ <;> rfl

/-- C10: a non-medical classification in `RAGSystem.api_query` leaves the
session history untouched and performs no save, while retrieval is still
executed and the returned payload carries success = true, the fixed refusal
answer, and the diagnostic fields populated from that retrieval. -/
theorem apiQuery_nonMedical_frame (maxHistoryLength : Nat)
    (question sessionId ts : String) (includeHistory : Bool)
    (disclaimer : Option String) (priorChatHistory : Option (List ChatMsg))
    (externalKnowledgeInstructions : Option String) (classif : Option String)
    (results : List Chunk) (gen : String → String) (hist : List HistEntry)
    (hq : pyStrip question ≠ "")
    (hclass : resolveClassification classif question = "non-medical") :
    (apiQuery maxHistoryLength question sessionId ts includeHistory disclaimer
        priorChatHistory externalKnowledgeInstructions classif results gen hist).histAfter
      = hist ∧
    (apiQuery maxHistoryLength question sessionId ts includeHistory disclaimer
        priorChatHistory externalKnowledgeInstructions classif results gen hist).saved = false ∧
    (apiQuery maxHistoryLength question sessionId ts includeHistory disclaimer
        priorChatHistory externalKnowledgeInstructions classif results gen hist).searchCalls = 1 ∧
    (apiQuery maxHistoryLength question sessionId ts includeHistory disclaimer
        priorChatHistory externalKnowledgeInstructions classif results gen hist).payload.success
      = true ∧
    (apiQuery maxHistoryLength question sessionId ts includeHistory disclaimer
        priorChatHistory externalKnowledgeInstructions classif results gen hist).payload.answer
      = some refusalAnswer ∧
    (apiQuery maxHistoryLength question sessionId ts includeHistory disclaimer
        priorChatHistory externalKnowledgeInstructions classif results gen hist).payload.classification
      = "non-medical" ∧
    (apiQuery maxHistoryLength question sessionId ts includeHistory disclaimer
        priorChatHistory externalKnowledgeInstructions classif results gen hist).payload.chunks_found
      = results.length ∧
    (apiQuery maxHistoryLength question sessionId ts includeHistory disclaimer
        priorChatHistory externalKnowledgeInstructions classif results gen hist).payload.rag_context
      = (if !(results.map Chunk.content).isEmpty then
          String.intercalate "\n\n" (results.map Chunk.content)
         else "No context retrieved from the knowledge base.") ∧
    (apiQuery maxHistoryLength question sessionId ts includeHistory disclaimer
        priorChatHistory externalKnowledgeInstructions classif results gen hist).payload.context_snippets
      = results := by
  have hq0 : (question == "") = false := by
    refine beq_eq_false_iff_ne.mpr fun h => ?_
    subst h
    exact hq rfl
  have hqs : (pyStrip question == "") = false := beq_eq_false_iff_ne.mpr hq
  unfold apiQuery
  rw [hq0, hqs, hclass]
  simp only [Bool.or_self, Bool.false_eq_true, if_false]
  exact ⟨rfl, rfl, rfl, rfl, rfl, rfl, rfl, rfl, rfl⟩

/-- C10 witness: a concrete non-medical API query leaves the history alone,
skips the save, and still reports the executed retrieval. -/
theorem apiQuery_nonMedical_frame_witness :
    pyStrip "tell me about sports" ≠ "" ∧
    resolveClassification none "tell me about sports" = "non-medical" ∧
    ((apiQuery 10 "tell me about sports" "s1" "t0" true none none none none
        [{ content := "c1", metadata := [("source", "doc")], similarity := some 1 }]
        (fun _ => "unused")
        [{ user := "u", assistant := "a", timestamp := "t" }]).histAfter
      = [{ user := "u", assistant := "a", timestamp := "t" }] ∧
    (apiQuery 10 "tell me about sports" "s1" "t0" true none none none none
        [{ content := "c1", metadata := [("source", "doc")], similarity := some 1 }]
        (fun _ => "unused")
        [{ user := "u", assistant := "a", timestamp := "t" }]).saved = false ∧
    (apiQuery 10 "tell me about sports" "s1" "t0" true none none none none
        [{ content := "c1", metadata := [("source", "doc")], similarity := some 1 }]
        (fun _ => "unused")
        [{ user := "u", assistant := "a", timestamp := "t" }]).searchCalls = 1 ∧
    (apiQuery 10 "tell me about sports" "s1" "t0" true none none none none
        [{ content := "c1", metadata := [("source", "doc")], similarity := some 1 }]
        (fun _ => "unused")
        [{ user := "u", assistant := "a", timestamp := "t" }]).payload.success = true ∧
    (apiQuery 10 "tell me about sports" "s1" "t0" true none none none none
        [{ content := "c1", metadata := [("source", "doc")], similarity := some 1 }]
        (fun _ => "unused")
        [{ user := "u", assistant := "a", timestamp := "t" }]).payload.answer
      = some refusalAnswer ∧
    (apiQuery 10 "tell me about sports" "s1" "t0" true none none none none
        [{ content := "c1", metadata := [("source", "doc")], similarity := some 1 }]
        (fun _ => "unused")
        [{ user := "u", assistant := "a", timestamp := "t" }]).payload.classification
      = "non-medical" ∧
    (apiQuery 10 "tell me about sports" "s1" "t0" true none none none none
        [{ content := "c1", metadata := [("source", "doc")], similarity := some 1 }]
        (fun _ => "unused")
        [{ user := "u", assistant := "a", timestamp := "t" }]).payload.chunks_found
      = ([{ content := "c1", metadata := [("source", "doc")], similarity := some 1 }] : List Chunk).length ∧
    (apiQuery 10 "tell me about sports" "s1" "t0" true none none none none
        [{ content := "c1", metadata := [("source", "doc")], similarity := some 1 }]
        (fun _ => "unused")
        [{ user := "u", assistant := "a", timestamp := "t" }]).payload.rag_context
      = (if !(([{ content := "c1", metadata := [("source", "doc")], similarity := some 1 }] : List Chunk).map Chunk.content).isEmpty then
          String.intercalate "\n\n" (([{ content := "c1", metadata := [("source", "doc")], similarity := some 1 }] : List Chunk).map Chunk.content)
         else "No context retrieved from the knowledge base.") ∧
    (apiQuery 10 "tell me about sports" "s1" "t0" true none none none none
        [{ content := "c1", metadata := [("source", "doc")], similarity := some 1 }]
        (fun _ => "unused")
        [{ user := "u", assistant := "a", timestamp := "t" }]).payload.context_snippets
      = [{ content := "c1", metadata := [("source", "doc")], similarity := some 1 }]) :=
  ⟨by decide, by decide,
   apiQuery_nonMedical_frame 10 "tell me about sports" "s1" "t0" true none none none none
     [{ content := "c1", metadata := [("source", "doc")], similarity := some 1 }]
     (fun _ => "unused")
     [{ user := "u", assistant := "a", timestamp := "t" }]
     (by decide) (by decide)⟩

end MedicalBot
